import Mathlib

/-
Verification of the ride dispatch engine of Aybaban/CPE106L-Project against
its specification. The Python modules models.py, crud.py, services.py and
main.py are shallowly embedded below: SQLAlchemy sessions become an explicit
DB value threaded through every operation, datetime.utcnow() becomes an
explicit Nat parameter, Python exceptions become Except, and the float
columns become rationals. Definitions follow the source line by line; the
comments cite the file and line they embed.
-/

/-- Python exceptions that the embedded code can raise: NameError carries the
unresolved name, exc stands for any other exception value. -/
inductive PyErr where
  | nameError (name : String)
  | exc (msg : String)
  deriving DecidableEq

/-- The ride_status_enum of models.py line 57 and the RideStatus Pydantic enum
of models.py lines 76-81. -/
inductive RideStatus where
  | pending
  | assigned
  | in_progress
  | completed
  | cancelled
  deriving DecidableEq

/-- The user_type_enum of models.py line 25. -/
inductive UserType where
  | elderly
  | accessibility
  deriving DecidableEq

/-- The users table of models.py lines 18-29 (the relationship attribute is
represented by the requester_id foreign key on RideRequest). -/
structure User where
  id : Nat
  name : String
  phone : String
  address : String
  user_type : UserType
  created_at : Nat
  deriving DecidableEq

/-- The volunteers table of models.py lines 31-46. The availability column is
a single String (models.py line 41 stores the comma separated form). -/
structure Volunteer where
  id : Nat
  name : String
  phone : String
  car_model : Option String
  license_plate : Option String
  availability : String
  current_location : Option String
  created_at : Nat
  deriving DecidableEq

/-- The ride_requests table of models.py lines 48-63. The nullable float
columns distance_km and estimated_duration_minutes are Option of rational. -/
structure RideRequest where
  id : Nat
  requester_id : Nat
  pickup_address : String
  destination_address : String
  requested_time : Nat
  special_needs : Option String
  status : RideStatus
  assigned_volunteer_id : Option Nat
  assigned_time : Option Nat
  completed_time : Option Nat
  created_at : Nat
  distance_km : Option ℚ
  estimated_duration_minutes : Option ℚ
  deriving DecidableEq

/-- The UserCreate Pydantic schema of models.py lines 83-90. -/
structure UserCreate where
  name : String
  phone : String
  address : String
  user_type : UserType
  deriving DecidableEq

/-- The VolunteerCreate Pydantic schema of models.py lines 99-108: here the
availability field is a list of strings. -/
structure VolunteerCreate where
  name : String
  phone : String
  car_model : Option String
  license_plate : Option String
  availability : List String
  current_location : Option String
  deriving DecidableEq

/-- The RideRequestCreate Pydantic schema of models.py lines 117-125. -/
structure RideRequestCreate where
  requester_id : Nat
  pickup_address : String
  destination_address : String
  requested_time : Nat
  special_needs : Option String
  deriving DecidableEq

/-- The RideUpdate Pydantic schema of models.py lines 144-148: every field is
optional and defaults to unset. -/
structure RideUpdate where
  status : Option RideStatus := none
  assigned_volunteer_id : Option Nat := none
  assigned_time : Option Nat := none
  completed_time : Option Nat := none
  deriving DecidableEq

/-- The SQLite database behind the SQLAlchemy session: the three tables in
insertion order plus the autoincrement counters. -/
structure DB where
  users : List User
  volunteers : List Volunteer
  rides : List RideRequest
  nextUserId : Nat := 1
  nextVolunteerId : Nat := 1
  nextRideId : Nat := 1
  deriving DecidableEq

/-- The empty database produced by init_db. -/
def dbInit : DB := { users := [], volunteers := [], rides := [] }

/-- Embeds crud.create_user (crud.py lines 15-27). -/
def create_user (db : DB) (now : Nat) (user : UserCreate) : DB × User :=
  let db_user : User :=
    { id := db.nextUserId
      name := user.name
      phone := user.phone
      address := user.address
      user_type := user.user_type
      created_at := now }
  ({ db with users := db.users ++ [db_user], nextUserId := db.nextUserId + 1 },
    db_user)

/-- Embeds crud.get_user (crud.py lines 29-31). -/
def get_user (db : DB) (user_id : Nat) : Option User :=
  db.users.find? (fun u => u.id == user_id)

/-- Embeds crud.update_user (crud.py lines 37-49) as the endpoint of main.py
line 57 drives it: the UserCreate payload supplies every field, so the
setattr loop replaces all of them. -/
def update_user (db : DB) (user_id : Nat) (data : UserCreate) : DB × Option User :=
  match get_user db user_id with
  | some db_user =>
      let db_user :=
        { db_user with
            name := data.name
            phone := data.phone
            address := data.address
            user_type := data.user_type }
      ({ db with users := db.users.map (fun u => if u.id == user_id then db_user else u) },
        some db_user)
  | none => (db, none)

/-- Embeds crud.delete_user (crud.py lines 51-58). -/
def delete_user (db : DB) (user_id : Nat) : DB × Bool :=
  match get_user db user_id with
  | some _ => ({ db with users := db.users.filter (fun u => u.id != user_id) }, true)
  | none => (db, false)

/-- Embeds crud.create_volunteer (crud.py lines 61-75). The availability list
is stored as a comma separated string: crud.py line 68 joins it. -/
def create_volunteer (db : DB) (now : Nat) (volunteer : VolunteerCreate) :
    DB × Volunteer :=
  let db_volunteer : Volunteer :=
    { id := db.nextVolunteerId
      name := volunteer.name
      phone := volunteer.phone
      car_model := volunteer.car_model
      license_plate := volunteer.license_plate
      availability := String.intercalate "," volunteer.availability
      current_location := volunteer.current_location
      created_at := now }
  ({ db with
      volunteers := db.volunteers ++ [db_volunteer]
      nextVolunteerId := db.nextVolunteerId + 1 },
    db_volunteer)

/-- Embeds crud.get_volunteer (crud.py lines 77-79). -/
def get_volunteer (db : DB) (volunteer_id : Nat) : Option Volunteer :=
  db.volunteers.find? (fun v => v.id == volunteer_id)

/-- Embeds crud.get_volunteers (crud.py lines 81-83): offset skip, limit. -/
def get_volunteers (db : DB) (skip limit : Nat) : List Volunteer :=
  (db.volunteers.drop skip).take limit

/-- Embeds the VolunteerInDB read path (models.py lines 110-115 with orm_mode):
the attribute is read back from the row verbatim; no code in the repository
splits the stored string into a list again. -/
def read_availability (v : Volunteer) : String :=
  v.availability

/-- Embeds crud.update_volunteer (crud.py lines 85-97) as driven by main.py
line 91: the VolunteerCreate payload supplies every field and line 91 of
crud.py joins the availability list back into a string. -/
def update_volunteer (db : DB) (volunteer_id : Nat) (data : VolunteerCreate) :
    DB × Option Volunteer :=
  match get_volunteer db volunteer_id with
  | some db_volunteer =>
      let db_volunteer :=
        { db_volunteer with
            name := data.name
            phone := data.phone
            car_model := data.car_model
            license_plate := data.license_plate
            availability := String.intercalate "," data.availability
            current_location := data.current_location }
      ({ db with
          volunteers := db.volunteers.map
            (fun v => if v.id == volunteer_id then db_volunteer else v) },
        some db_volunteer)
  | none => (db, none)

/-- Embeds crud.delete_volunteer (crud.py lines 99-106). -/
def delete_volunteer (db : DB) (volunteer_id : Nat) : DB × Bool :=
  match get_volunteer db volunteer_id with
  | some _ =>
      ({ db with volunteers := db.volunteers.filter (fun v => v.id != volunteer_id) },
        true)
  | none => (db, false)

/-- Embeds crud.create_ride_request (crud.py lines 109-125): the new row gets
status pending, no assignment fields, and the supplied route figures. -/
def create_ride_request (db : DB) (now : Nat) (ride_request : RideRequestCreate)
    (distance_km estimated_duration_minutes : ℚ) : DB × RideRequest :=
  let db_ride_request : RideRequest :=
    { id := db.nextRideId
      requester_id := ride_request.requester_id
      pickup_address := ride_request.pickup_address
      destination_address := ride_request.destination_address
      requested_time := ride_request.requested_time
      special_needs := ride_request.special_needs
      status := RideStatus.pending
      assigned_volunteer_id := none
      assigned_time := none
      completed_time := none
      created_at := now
      distance_km := some distance_km
      estimated_duration_minutes := some estimated_duration_minutes }
  ({ db with rides := db.rides ++ [db_ride_request], nextRideId := db.nextRideId + 1 },
    db_ride_request)

/-- Embeds crud.get_ride_request (crud.py lines 127-129). -/
def get_ride_request (db : DB) (ride_request_id : Nat) : Option RideRequest :=
  db.rides.find? (fun r => r.id == ride_request_id)

/-- The setattr loop of crud.update_ride_request (crud.py lines 141-145)
applied to a ride row: each field present in update_data overwrites the
corresponding attribute, unset or None fields are skipped (the dict
comprehension of line 140 drops them). -/
def applyRideUpdate (r : RideRequest) (data : RideUpdate) : RideRequest :=
  { r with
      status := data.status.getD r.status
      assigned_volunteer_id :=
        match data.assigned_volunteer_id with
        | some v => some v
        | none => r.assigned_volunteer_id
      assigned_time :=
        match data.assigned_time with
        | some v => some v
        | none => r.assigned_time
      completed_time :=
        match data.completed_time with
        | some v => some v
        | none => r.completed_time }

/-- Python name resolution for a ride valued local: the environment lists the
names of the enclosing function scope that are bound to a ride row; reading a
name outside it raises NameError. -/
def pyLookup (env : List (String × RideRequest)) (n : String) :
    Except PyErr RideRequest :=
  match env.find? (fun b => b.1 == n) with
  | some b => Except.ok b.2
  | none => Except.error (PyErr.nameError n)

/-- The ride valued bindings of the local scope of crud.update_ride_request
(crud.py lines 138-148): its locals are db, ride_request_id, data, update_data,
key and value, and none of them is ever assigned a ride row. The sibling
functions bind db_user (crud.py line 39) and db_volunteer (crud.py line 87)
by querying first; update_ride_request has no such query, so no binding for
db_ride_request exists. -/
def localRideBindings : List (String × RideRequest) := []

/-- Writes a ride row back to the table, as db.commit plus db.refresh would
publish it (crud.py lines 146-147). -/
def dbSetRide (db : DB) (ride_request_id : Nat) (r : RideRequest) : DB :=
  { db with rides := db.rides.map (fun x => if x.id == ride_request_id then r else x) }

/-- Embeds crud.update_ride_request (crud.py lines 138-148). Line 140 builds
update_data from the non None fields of data; lines 141-147 then read the
name db_ride_request (setattr arguments on lines 143 and 145, db.refresh on
line 147), which the local scope never binds, so the first such read raises
NameError before any attribute is written. The ok branch below spells out
what the loop, commit and refresh would do to a bound row; it is dead because
the lookup fails. -/
def update_ride_request (db : DB) (ride_request_id : Nat) (data : RideUpdate) :
    Except PyErr (DB × RideRequest) :=
  match pyLookup localRideBindings "db_ride_request" with
  | Except.error e => Except.error e
  | Except.ok db_ride_request =>
      let r := applyRideUpdate db_ride_request data
      Except.ok (dbSetRide db ride_request_id r, r)

/-- Embeds crud.delete_ride_request (crud.py lines 150-157). -/
def delete_ride_request (db : DB) (ride_request_id : Nat) : DB × Bool :=
  match get_ride_request db ride_request_id with
  | some _ =>
      ({ db with rides := db.rides.filter (fun r => r.id != ride_request_id) }, true)
  | none => (db, false)

/-- The route figures returned by GoogleMapsService.get_distance_and_duration
(services.py line 41). -/
structure RouteInfo where
  distance_km : ℚ
  estimated_duration_minutes : ℚ
  deriving DecidableEq

/-- The two argument round of Python at two decimal places, on rationals.
Python rounds halves to even while round here rounds halves up; the two only
differ on exact half ties, which no bound proved below depends on. -/
def round2 (q : ℚ) : ℚ :=
  ((round (q * 100) : ℤ) : ℚ) / 100

/-- Embeds GoogleMapsService.get_distance_and_duration (services.py lines
26-41). The two random draws are explicit parameters: u1 stands for
random.uniform(1, 30) and u2 for random.uniform(2, 4), so line 39 yields
round2 u1 and line 40 yields round2 of their product. The mock returns on
every input; no failure path exists in the source. -/
def get_distance_and_duration (u1 u2 : ℚ) : RouteInfo :=
  { distance_km := round2 u1
    estimated_duration_minutes := round2 (u1 * u2) }

/-- Embeds ScheduleManager.request_ride (services.py lines 52-69) over the
outcome route_result of the provider call on lines 57-60: the call is the
first statement of the body, so a raising call propagates before
crud.create_ride_request on line 63 runs, and an ok outcome feeds its two
figures into the new row. -/
def request_ride (route_result : Except PyErr RouteInfo) (now : Nat) (db : DB)
    (ride_request_data : RideRequestCreate) : Except PyErr (DB × RideRequest) :=
  match route_result with
  | Except.error e => Except.error e
  | Except.ok route_info =>
      Except.ok (create_ride_request db now ride_request_data
        route_info.distance_km route_info.estimated_duration_minutes)

/-- Embeds ScheduleManager.assign_volunteer_to_ride (services.py lines
71-96): load ride and volunteer, return None if either is missing (line 80)
or the status is not pending (lines 82-84), otherwise build the RideUpdate of
lines 87-91 and hand it to crud.update_ride_request. -/
def assign_volunteer_to_ride (now : Nat) (db : DB)
    (ride_request_id volunteer_id : Nat) :
    Except PyErr (DB × Option RideRequest) :=
  match get_ride_request db ride_request_id, get_volunteer db volunteer_id with
  | some ride_request, some volunteer =>
      if ride_request.status ≠ RideStatus.pending then
        Except.ok (db, none)
      else
        Except.map (fun p => (p.1, some p.2))
          (update_ride_request db ride_request_id
            { status := some RideStatus.assigned
              assigned_volunteer_id := some volunteer.id
              assigned_time := some now })
  | _, _ => Except.ok (db, none)

/-- Embeds ScheduleManager.complete_ride (services.py lines 98-116): None if
the ride is missing (line 104) or the status is neither assigned nor
in_progress (lines 106-108), otherwise the RideUpdate of lines 110-113. -/
def complete_ride (now : Nat) (db : DB) (ride_request_id : Nat) :
    Except PyErr (DB × Option RideRequest) :=
  match get_ride_request db ride_request_id with
  | none => Except.ok (db, none)
  | some ride_request =>
      if ride_request.status ≠ RideStatus.assigned ∧
          ride_request.status ≠ RideStatus.in_progress then
        Except.ok (db, none)
      else
        Except.map (fun p => (p.1, some p.2))
          (update_ride_request db ride_request_id
            { status := some RideStatus.completed
              completed_time := some now })

/-- Embeds ScheduleManager.cancel_ride (services.py lines 118-135): None if
the ride is missing (line 124) or already completed (lines 126-128) - that is
the only status the guard rejects - otherwise the RideUpdate of lines
130-132. -/
def cancel_ride (db : DB) (ride_request_id : Nat) :
    Except PyErr (DB × Option RideRequest) :=
  match get_ride_request db ride_request_id with
  | none => Except.ok (db, none)
  | some ride_request =>
      if ride_request.status = RideStatus.completed then
        Except.ok (db, none)
      else
        Except.map (fun p => (p.1, some p.2))
          (update_ride_request db ride_request_id
            { status := some RideStatus.cancelled })

/-- Embeds ScheduleManager.find_best_volunteer (services.py lines 137-171):
line 151 loads the whole pool with the default pagination, lines 159-169
return its first element when it is non empty and None otherwise. No
availability filter and no travel time comparison appears in the executed
code; the ride_request argument is never consulted. -/
def find_best_volunteer (db : DB) (_ride_request : RideRequest) :
    Option Volunteer :=
  let available_volunteers := get_volunteers db 0 100
  available_volunteers.head?

/-- Follows the words of spec section 4.2, for comparison with
find_best_volunteer; this definition is written from the specification, not
from the source. It filters the pool to volunteers whose availability window
contains the requested time, ranks survivors by estimated travel time from
their current location to the pickup address, and breaks ties by ascending
volunteer id. The window containment test and the travel estimator, which
the specification leaves to collaborators, are parameters. -/
def find_best_volunteer_spec (contains : String → Nat → Bool)
    (travel : Option String → String → ℚ) (pool : List Volunteer)
    (req : RideRequest) : Option Volunteer :=
  let survivors := pool.filter (fun v => contains v.availability req.requested_time)
  survivors.foldl
    (fun best v =>
      match best with
      | none => some v
      | some b =>
          let tv := travel v.current_location req.pickup_address
          let tb := travel b.current_location req.pickup_address
          if tv < tb ∨ (tv = tb ∧ v.id < b.id) then some v else some b)
    none

/-- Embeds the request_new_ride endpoint (main.py lines 106-118): it checks
that the requester exists (lines 113-115) and then delegates to
ScheduleManager.request_ride. -/
def request_new_ride (route_result : Except PyErr RouteInfo) (now : Nat)
    (db : DB) (ride_request : RideRequestCreate) :
    Except PyErr (DB × RideRequest) :=
  match get_user db ride_request.requester_id with
  | none => Except.error (PyErr.exc "Requester user not found.")
  | some _ => request_ride route_result now db ride_request

/-- Embeds the update_ride_request_details endpoint (main.py lines 160-166):
the PUT route hands the RideUpdate payload straight to
crud.update_ride_request. -/
def update_ride_request_details (db : DB) (ride_id : Nat) (ride_update : RideUpdate) :
    Except PyErr (DB × RideRequest) :=
  update_ride_request db ride_id ride_update

/-- The database a mutating call leaves behind: the committed database on a
normal return, the untouched one when the call raises (no write precedes any
raise in the embedded operations). -/
def exceptPost {α : Type} (x : Except PyErr (DB × α)) (db : DB) : DB :=
  match x with
  | Except.ok p => p.1
  | Except.error _ => db

/-- One scheduler call on the ride table, the operation set of the lifecycle
claims: assignment, completion or cancellation. -/
inductive RideOp where
  | assign (now ride_request_id volunteer_id : Nat)
  | complete (now ride_request_id : Nat)
  | cancel (ride_request_id : Nat)
  deriving DecidableEq

/-- The database reached after one scheduler call. -/
def applyRideOp (db : DB) : RideOp → DB
  | RideOp.assign now rid vid => exceptPost (assign_volunteer_to_ride now db rid vid) db
  | RideOp.complete now rid => exceptPost (complete_ride now db rid) db
  | RideOp.cancel rid => exceptPost (cancel_ride db rid) db

/-- The record field invariant of spec section 3: assigned_volunteer_id and
assigned_time both set or both unset, completed_time set only on a completed
ride. -/
def rideInv (r : RideRequest) : Prop :=
  (r.assigned_volunteer_id = none ↔ r.assigned_time = none) ∧
    (r.completed_time ≠ none → r.status = RideStatus.completed)

instance (r : RideRequest) : Decidable (rideInv r) := by
  unfold rideInv
  infer_instance

/-- The database states reachable through the operations main.py exposes,
starting from the empty database: every constructor is one endpoint call with
arbitrary arguments, its post state taken through exceptPost. -/
inductive Reachable : DB → Prop where
  | init : Reachable dbInit
  | user_created (db : DB) (now : Nat) (u : UserCreate) (h : Reachable db) :
      Reachable (create_user db now u).1
  | user_updated (db : DB) (uid : Nat) (d : UserCreate) (h : Reachable db) :
      Reachable (update_user db uid d).1
  | user_deleted (db : DB) (uid : Nat) (h : Reachable db) :
      Reachable (delete_user db uid).1
  | volunteer_created (db : DB) (now : Nat) (vc : VolunteerCreate) (h : Reachable db) :
      Reachable (create_volunteer db now vc).1
  | volunteer_updated (db : DB) (vid : Nat) (d : VolunteerCreate) (h : Reachable db) :
      Reachable (update_volunteer db vid d).1
  | volunteer_deleted (db : DB) (vid : Nat) (h : Reachable db) :
      Reachable (delete_volunteer db vid).1
  | ride_requested (db : DB) (route_result : Except PyErr RouteInfo) (now : Nat)
      (data : RideRequestCreate) (h : Reachable db) :
      Reachable (exceptPost (request_new_ride route_result now db data) db)
  | ride_assigned (db : DB) (now rid vid : Nat) (h : Reachable db) :
      Reachable (exceptPost (assign_volunteer_to_ride now db rid vid) db)
  | ride_completed (db : DB) (now rid : Nat) (h : Reachable db) :
      Reachable (exceptPost (complete_ride now db rid) db)
  | ride_cancelled (db : DB) (rid : Nat) (h : Reachable db) :
      Reachable (exceptPost (cancel_ride db rid) db)
  | ride_put (db : DB) (rid : Nat) (u : RideUpdate) (h : Reachable db) :
      Reachable (exceptPost (update_ride_request_details db rid u) db)
  | ride_deleted (db : DB) (rid : Nat) (h : Reachable db) :
      Reachable (delete_ride_request db rid).1

/-- A user fixture. -/
def u1 : User :=
  { id := 1, name := "Alice", phone := "555-0001", address := "1 A St"
    user_type := UserType.elderly, created_at := 0 }

/-- A volunteer fixture with an empty availability string and a far current
location. -/
def v1 : Volunteer :=
  { id := 1, name := "Vol One", phone := "555-0002", car_model := none
    license_plate := none, availability := "", current_location := some "far"
    created_at := 0 }

/-- A volunteer fixture whose availability names the Saturday window and
whose current location is near the pickup. -/
def v2 : Volunteer :=
  { id := 2, name := "Vol Two", phone := "555-0003", car_model := none
    license_plate := none, availability := "Sat 10-11"
    current_location := some "near", created_at := 0 }

/-- A pending ride fixture with id 1. -/
def ride1 : RideRequest :=
  { id := 1, requester_id := 1, pickup_address := "123 Main St"
    destination_address := "45 Oak Ave", requested_time := 10
    special_needs := none, status := RideStatus.pending
    assigned_volunteer_id := none, assigned_time := none, completed_time := none
    created_at := 0, distance_km := some 5, estimated_duration_minutes := some 15 }

/-- An assigned ride fixture with id 1. -/
def rideA : RideRequest :=
  { ride1 with
      status := RideStatus.assigned
      assigned_volunteer_id := some 1
      assigned_time := some 5 }

/-- A cancelled ride fixture with id 1. -/
def rideC : RideRequest :=
  { ride1 with status := RideStatus.cancelled }

/-- A database holding one user, one volunteer and one pending ride. -/
def db3 : DB :=
  { users := [u1], volunteers := [v1], rides := [ride1]
    nextUserId := 2, nextVolunteerId := 2, nextRideId := 2 }

/-- A database holding two volunteers and one pending ride. -/
def db4 : DB :=
  { users := [], volunteers := [v1, v2], rides := [ride1]
    nextVolunteerId := 3, nextRideId := 2 }

/-- A database holding one assigned ride. -/
def dbA : DB :=
  { users := [], volunteers := [v1], rides := [rideA]
    nextVolunteerId := 2, nextRideId := 2 }

/-- A database holding one cancelled ride. -/
def dbC : DB :=
  { users := [], volunteers := [], rides := [rideC], nextRideId := 2 }

/-- A database holding the pool v1 then v2 and no rides. -/
def db2 : DB :=
  { users := [], volunteers := [v1, v2], rides := [], nextVolunteerId := 3 }

/-- A database whose only volunteer has the empty availability string. -/
def db7 : DB :=
  { users := [], volunteers := [v1], rides := [], nextVolunteerId := 2 }

/-- A pending ride asking for time 10 from pickup P. -/
def reqX : RideRequest :=
  { id := 9, requester_id := 1, pickup_address := "P", destination_address := "D"
    requested_time := 10, special_needs := none, status := RideStatus.pending
    assigned_volunteer_id := none, assigned_time := none, completed_time := none
    created_at := 0, distance_km := none, estimated_duration_minutes := none }

/-- A concrete availability window test for the specification side model: the
window string names the Saturday slot and the requested time is 10. -/
def cxContains (a : String) (t : Nat) : Bool :=
  a == "Sat 10-11" && t == 10

/-- A concrete travel estimator for the specification side model: one minute
from the near location, nine from anywhere else. -/
def cxTravel (loc : Option String) (_dest : String) : ℚ :=
  if loc == some "near" then 1 else 9

/-- A volunteer creation payload with a two element availability list. -/
def vc0 : VolunteerCreate :=
  { name := "V", phone := "555-0004", car_model := none, license_plate := none
    availability := ["Monday 9-12", "Wednesday 1-4"], current_location := none }

/-- The route outcome used to build a reachable database with one ride. -/
def infoW : RouteInfo := { distance_km := 3, estimated_duration_minutes := 9 }

/-- The creation payload used to build a reachable database with one ride. -/
def dataW : RideRequestCreate :=
  { requester_id := 1, pickup_address := "X", destination_address := "Y"
    requested_time := 7, special_needs := none }

/-- The user payload used to build a reachable database with one ride. -/
def uW : UserCreate :=
  { name := "U", phone := "555-0005", address := "A", user_type := UserType.elderly }

/-- The reachable database after one user creation. -/
def dbW1 : DB := (create_user dbInit 1 uW).1

/-- The reachable database after one user creation and one ride request. -/
def dbW2 : DB := exceptPost (request_new_ride (Except.ok infoW) 2 dbW1 dataW) dbW1

theorem update_ride_request_raises (db : DB) (rid : Nat) (data : RideUpdate) :
    update_ride_request db rid data = Except.error (PyErr.nameError "db_ride_request") :=
  rfl

theorem assign_volunteer_cases (now : Nat) (db : DB) (rid vid : Nat) :
    assign_volunteer_to_ride now db rid vid = Except.ok (db, none) ∨
      assign_volunteer_to_ride now db rid vid =
        Except.error (PyErr.nameError "db_ride_request") := by
  unfold assign_volunteer_to_ride
  cases hr : get_ride_request db rid with
  | none => exact Or.inl rfl
  | some r =>
    cases hv : get_volunteer db vid with
    | none => exact Or.inl rfl
    | some v =>
      by_cases hs : r.status = RideStatus.pending
      · right
        simp [hs, update_ride_request_raises, Except.map]
      · left
        simp [hs]

theorem complete_ride_cases (now : Nat) (db : DB) (rid : Nat) :
    complete_ride now db rid = Except.ok (db, none) ∨
      complete_ride now db rid = Except.error (PyErr.nameError "db_ride_request") := by
  unfold complete_ride
  cases hr : get_ride_request db rid with
  | none => exact Or.inl rfl
  | some r =>
    by_cases hs : r.status ≠ RideStatus.assigned ∧ r.status ≠ RideStatus.in_progress
    · left
      simp [hs]
    · right
      simp [hs, update_ride_request_raises, Except.map]

theorem cancel_ride_cases (db : DB) (rid : Nat) :
    cancel_ride db rid = Except.ok (db, none) ∨
      cancel_ride db rid = Except.error (PyErr.nameError "db_ride_request") := by
  unfold cancel_ride
  cases hr : get_ride_request db rid with
  | none => exact Or.inl rfl
  | some r =>
    by_cases hs : r.status = RideStatus.completed
    · left
      simp [hs]
    · right
      simp [hs, update_ride_request_raises, Except.map]

theorem applyRideOp_fixed (db : DB) (op : RideOp) : applyRideOp db op = db := by
  cases op with
  | assign now rid vid =>
    rcases assign_volunteer_cases now db rid vid with h | h <;>
      simp [applyRideOp, exceptPost, h]
  | complete now rid =>
    rcases complete_ride_cases now db rid with h | h <;>
      simp [applyRideOp, exceptPost, h]
  | cancel rid =>
    rcases cancel_ride_cases db rid with h | h <;>
      simp [applyRideOp, exceptPost, h]

theorem foldl_rideOps (db : DB) (ops : List RideOp) :
    ops.foldl applyRideOp db = db := by
  induction ops generalizing db with
  | nil => rfl
  | cons op ops ih => simp [List.foldl, applyRideOp_fixed, ih]

/-- C9: crud.update_ride_request reads the unbound local db_ride_request, so
every call raises NameError and returns no updated record; consequently every
mutating path that reaches it - assignment of a pending ride with an existing
volunteer, completion of an assigned or in progress ride, cancellation of any
non completed ride, and the PUT ride endpoint - raises instead of returning
the mutated ride. -/
theorem claim_C9_update_namerror :
    (∀ db rid data,
        update_ride_request db rid data =
          Except.error (PyErr.nameError "db_ride_request")) ∧
    (∀ now db rid vid r v, get_ride_request db rid = some r →
        get_volunteer db vid = some v → r.status = RideStatus.pending →
        assign_volunteer_to_ride now db rid vid =
          Except.error (PyErr.nameError "db_ride_request")) ∧
    (∀ now db rid r, get_ride_request db rid = some r →
        (r.status = RideStatus.assigned ∨ r.status = RideStatus.in_progress) →
        complete_ride now db rid =
          Except.error (PyErr.nameError "db_ride_request")) ∧
    (∀ db rid r, get_ride_request db rid = some r →
        r.status ≠ RideStatus.completed →
        cancel_ride db rid = Except.error (PyErr.nameError "db_ride_request")) ∧
    (∀ db rid u,
        update_ride_request_details db rid u =
          Except.error (PyErr.nameError "db_ride_request")) := by
  refine ⟨fun db rid data => rfl, ?_, ?_, ?_, fun db rid u => rfl⟩
  · intro now db rid vid r v hr hv hs
    unfold assign_volunteer_to_ride
    simp [hr, hv, hs, update_ride_request_raises, Except.map]
  · intro now db rid r hr hs
    unfold complete_ride
    rcases hs with h | h <;>
      simp [hr, h, update_ride_request_raises, Except.map]
  · intro db rid r hr hs
    unfold cancel_ride
    simp [hr, hs, update_ride_request_raises, Except.map]

/-- Witness for C9 at concrete databases: the raw update, an assignment of the
pending ride 1 to volunteer 1, a completion of the assigned ride 1, a
cancellation of the pending ride 1 and a PUT call all raise NameError. -/
theorem claim_C9_witness :
    update_ride_request db3 1 {} = Except.error (PyErr.nameError "db_ride_request") ∧
    assign_volunteer_to_ride 50 db3 1 1 =
      Except.error (PyErr.nameError "db_ride_request") ∧
    complete_ride 60 dbA 1 = Except.error (PyErr.nameError "db_ride_request") ∧
    cancel_ride db3 1 = Except.error (PyErr.nameError "db_ride_request") ∧
    update_ride_request_details db3 1 {} =
      Except.error (PyErr.nameError "db_ride_request") :=
  ⟨claim_C9_update_namerror.1 db3 1 {},
    claim_C9_update_namerror.2.1 50 db3 1 1 ride1 v1 rfl rfl rfl,
    claim_C9_update_namerror.2.2.1 60 dbA 1 rideA rfl (Or.inl rfl),
    claim_C9_update_namerror.2.2.2.1 db3 1 ride1 rfl (by decide),
    claim_C9_update_namerror.2.2.2.2 db3 1 {}⟩

/-- C1: a created ride starts pending; no sequence of assignment, completion
or cancellation calls ever changes any stored status (in the code as written
every status write raises NameError before committing, so the table of legal
transitions is never left); in particular cancel_ride on a ride whose status
is already cancelled fails - its guard passes only completed, and the call
then raises from update_ride_request - and leaves the database unchanged. -/
theorem claim_C1_lifecycle_terminality :
    (∀ db now data dkm edm,
        ((create_ride_request db now data dkm edm).2).status = RideStatus.pending) ∧
    (∀ db : DB, ∀ ops : List RideOp, ops.foldl applyRideOp db = db) ∧
    (∀ db rid r, get_ride_request db rid = some r →
        r.status = RideStatus.cancelled →
        cancel_ride db rid = Except.error (PyErr.nameError "db_ride_request")) := by
  refine ⟨fun db now data dkm edm => rfl, fun db ops => foldl_rideOps db ops, ?_⟩
  intro db rid r hr hs
  unfold cancel_ride
  simp [hr, hs, update_ride_request_raises, Except.map]

/-- Witness for C1: the database dbC holds the cancelled ride rideC under id
1, and cancelling it again fails with NameError. -/
theorem claim_C1_witness :
    get_ride_request dbC 1 = some rideC ∧
    rideC.status = RideStatus.cancelled ∧
    cancel_ride dbC 1 = Except.error (PyErr.nameError "db_ride_request") :=
  ⟨rfl, rfl, claim_C1_lifecycle_terminality.2.2 dbC 1 rideC rfl rfl⟩

/-- C3 (code bug): in db3 the ride 1 is pending and the volunteer 1 exists,
the one situation in which the claim and spec scenario B promise a successful
assignment that sets status assigned with the volunteer and time; the call
instead raises NameError from crud.update_ride_request and returns no
updated ride. -/
theorem claim_C3_assign_raises :
    (get_ride_request db3 1).map (fun r => r.status) = some RideStatus.pending ∧
    (get_volunteer db3 1).isSome = true ∧
    assign_volunteer_to_ride 50 db3 1 1 =
      Except.error (PyErr.nameError "db_ride_request") :=
  ⟨rfl, rfl, rfl⟩

/-- C4 (code bug): two assignment calls on the same pending ride 1, one for
volunteer 1 and then one for volunteer 2 against the state the first call
left behind - the serialized schedule, which any exclusivity protocol must
also serve - both raise NameError: neither succeeds, the database is
unchanged, and the final state has no assigned volunteer, not the promised
exactly one. -/
theorem claim_C4_double_assign_both_fail :
    (get_ride_request db4 1).map (fun r => r.status) = some RideStatus.pending ∧
    assign_volunteer_to_ride 50 db4 1 1 =
      Except.error (PyErr.nameError "db_ride_request") ∧
    applyRideOp db4 (RideOp.assign 50 1 1) = db4 ∧
    assign_volunteer_to_ride 60 (applyRideOp db4 (RideOp.assign 50 1 1)) 1 2 =
      Except.error (PyErr.nameError "db_ride_request") ∧
    (get_ride_request (applyRideOp db4 (RideOp.assign 50 1 1)) 1).map
        (fun r => r.assigned_volunteer_id) = some none :=
  ⟨rfl, rfl, rfl, rfl, rfl⟩

/-- C5: every database reachable through the exposed operations keeps the
record field invariant on all its rides: assigned_volunteer_id and
assigned_time both set or both unset, completed_time set only on a completed
ride. Creation establishes it and, in the code as written, no other exposed
operation ever commits a change to the ride table. -/
theorem claim_C5_invariant :
    ∀ db : DB, Reachable db → ∀ r ∈ db.rides, rideInv r := by
  intro db h
  induction h with
  | init =>
    intro r hr
    simp [dbInit] at hr
  | user_created db now u hdb ih =>
    intro r hr
    exact ih r (by simpa [create_user] using hr)
  | user_updated db uid d hdb ih =>
    intro r hr
    cases hu : get_user db uid <;> simp [update_user, hu] at hr <;> exact ih r hr
  | user_deleted db uid hdb ih =>
    intro r hr
    cases hu : get_user db uid <;> simp [delete_user, hu] at hr <;> exact ih r hr
  | volunteer_created db now vc hdb ih =>
    intro r hr
    exact ih r (by simpa [create_volunteer] using hr)
  | volunteer_updated db vid d hdb ih =>
    intro r hr
    cases hv : get_volunteer db vid <;> simp [update_volunteer, hv] at hr <;>
      exact ih r hr
  | volunteer_deleted db vid hdb ih =>
    intro r hr
    cases hv : get_volunteer db vid <;> simp [delete_volunteer, hv] at hr <;>
      exact ih r hr
  | ride_requested db route_result now data hdb ih =>
    intro r hr
    cases hu : get_user db data.requester_id with
    | none =>
      simp [request_new_ride, hu, exceptPost] at hr
      exact ih r hr
    | some u =>
      cases route_result with
      | error e =>
        simp [request_new_ride, hu, request_ride, exceptPost] at hr
        exact ih r hr
      | ok info =>
        simp [request_new_ride, hu, request_ride, exceptPost,
          create_ride_request] at hr
        rcases hr with hr | hr
        · exact ih r hr
        · subst hr
          simp [rideInv]
  | ride_assigned db now rid vid hdb ih =>
    intro r hr
    rcases assign_volunteer_cases now db rid vid with hc | hc <;>
      simp [hc, exceptPost] at hr <;> exact ih r hr
  | ride_completed db now rid hdb ih =>
    intro r hr
    rcases complete_ride_cases now db rid with hc | hc <;>
      simp [hc, exceptPost] at hr <;> exact ih r hr
  | ride_cancelled db rid hdb ih =>
    intro r hr
    rcases cancel_ride_cases db rid with hc | hc <;>
      simp [hc, exceptPost] at hr <;> exact ih r hr
  | ride_put db rid u hdb ih =>
    intro r hr
    simp [update_ride_request_details, update_ride_request_raises, exceptPost] at hr
    exact ih r hr
  | ride_deleted db rid hdb ih =>
    intro r hr
    cases hg : get_ride_request db rid with
    | none =>
      simp [delete_ride_request, hg] at hr
      exact ih r hr
    | some x =>
      simp [delete_ride_request, hg, List.mem_filter] at hr
      exact ih r hr.1

/-- Witness for C5: the database dbW2, reached by creating one user and then
requesting one ride, satisfies the reachability hypothesis, and the one ride
it stores satisfies the record field invariant. -/
theorem claim_C5_witness :
    Reachable dbW2 ∧ rideInv ((create_ride_request dbW1 2 dataW 3 9).2) :=
  ⟨Reachable.ride_requested dbW1 (Except.ok infoW) 2 dataW
      (Reachable.user_created dbInit 1 uW Reachable.init),
    claim_C5_invariant dbW2
      (Reachable.ride_requested dbW1 (Except.ok infoW) 2 dataW
        (Reachable.user_created dbInit 1 uW Reachable.init))
      ((create_ride_request dbW1 2 dataW 3 9).2) (by decide)⟩

/-- C2 counterexample: in the pool v1 then v2, the volunteer v1 has no
availability window for the requested time 10 while v2 has one and also the
strictly lower travel estimate, so the specified algorithm selects v2; the
code returns v1, the first volunteer of the pool. -/
theorem claim_C2_counterexample :
    find_best_volunteer db2 reqX = some v1 ∧
    cxContains v1.availability reqX.requested_time = false ∧
    cxContains v2.availability reqX.requested_time = true ∧
    cxTravel v2.current_location reqX.pickup_address <
      cxTravel v1.current_location reqX.pickup_address ∧
    find_best_volunteer_spec cxContains cxTravel db2.volunteers reqX = some v2 ∧
    v1.id ≠ v2.id := by
  refine ⟨rfl, rfl, rfl, by decide, rfl, by decide⟩

/-- C2 amended: find_best_volunteer returns the first volunteer of the stored
pool and ignores the ride request entirely, so it is deterministic in the
pool order; it performs no availability filtering and no travel time
ranking. -/
theorem claim_C2_first_of_pool :
    (∀ (db : DB) (r : RideRequest), find_best_volunteer db r = db.volunteers.head?) ∧
    (∀ (db : DB) (ra rb : RideRequest),
        find_best_volunteer db ra = find_best_volunteer db rb) := by
  constructor
  · intro db r
    unfold find_best_volunteer get_volunteers
    cases db.volunteers with
    | nil => rfl
    | cons v vs => rfl
  · intro db ra rb
    rfl

/-- C6: request_ride runs the route estimation first; when that call raises,
the exception propagates unchanged and crud.create_ride_request is never
reached, so no ride record is added; when it returns, exactly one new pending
record carrying the two returned figures is appended. -/
theorem claim_C6_create_atomic :
    (∀ (e : PyErr) (now : Nat) (db : DB) (data : RideRequestCreate),
        request_ride (Except.error e) now db data = Except.error e) ∧
    (∀ (info : RouteInfo) (now : Nat) (db : DB) (data : RideRequestCreate),
        request_ride (Except.ok info) now db data =
          Except.ok (create_ride_request db now data
            info.distance_km info.estimated_duration_minutes) ∧
        (create_ride_request db now data
            info.distance_km info.estimated_duration_minutes).1.rides =
          db.rides ++ [(create_ride_request db now data
            info.distance_km info.estimated_duration_minutes).2] ∧
        (create_ride_request db now data
            info.distance_km info.estimated_duration_minutes).2.status =
          RideStatus.pending ∧
        (create_ride_request db now data
            info.distance_km info.estimated_duration_minutes).2.distance_km =
          some info.distance_km ∧
        (create_ride_request db now data
            info.distance_km info.estimated_duration_minutes).2.estimated_duration_minutes =
          some info.estimated_duration_minutes) :=
  ⟨fun _ _ _ _ => rfl, fun _ _ _ _ => ⟨rfl, rfl, rfl, rfl, rfl⟩⟩

/-- C7 counterexample: the pool of db7 holds exactly one volunteer, v1, whose
availability string is empty, so no availability window of the pool matches
the requested time 10 and the specified algorithm returns nothing; the code
still returns v1 instead of failing. -/
theorem claim_C7_counterexample :
    v1.availability = "" ∧
    find_best_volunteer_spec cxContains cxTravel db7.volunteers reqX = none ∧
    find_best_volunteer db7 reqX = some v1 :=
  ⟨rfl, rfl, rfl⟩

/-- C7 amended: find_best_volunteer fails - returns none - exactly when the
volunteer pool is empty; availability windows are never consulted. -/
theorem claim_C7_none_iff_pool_empty :
    ∀ (db : DB) (r : RideRequest),
      find_best_volunteer db r = none ↔ db.volunteers = [] := by
  intro db r
  unfold find_best_volunteer get_volunteers
  cases db.volunteers with
  | nil => simp
  | cons v vs =>
    show some v = none ↔ v :: vs = []
    simp

theorem round2_ge (q : ℚ) (n : ℤ) (h : (n : ℚ) ≤ q) : (n : ℚ) ≤ round2 q := by
  unfold round2
  rw [round_eq]
  have h1 : ((n * 100 : ℤ) : ℚ) ≤ q * 100 + 1 / 2 := by
    push_cast
    linarith
  have h2 : (n * 100 : ℤ) ≤ ⌊q * 100 + 1 / 2⌋ := Int.le_floor.mpr h1
  have h3 : ((n * 100 : ℤ) : ℚ) ≤ ((⌊q * 100 + 1 / 2⌋ : ℤ) : ℚ) := by
    exact_mod_cast h2
  push_cast at h3
  linarith

theorem round2_le (q : ℚ) (n : ℤ) (h : q ≤ (n : ℚ)) : round2 q ≤ (n : ℚ) := by
  unfold round2
  rw [round_eq]
  have h1 : q * 100 + 1 / 2 < ((n * 100 + 1 : ℤ) : ℚ) := by
    push_cast
    linarith
  have h2 : ⌊q * 100 + 1 / 2⌋ < (n * 100 + 1 : ℤ) := Int.floor_lt.mpr h1
  have h3 : ((⌊q * 100 + 1 / 2⌋ : ℤ) : ℚ) ≤ ((n * 100 : ℤ) : ℚ) := by
    exact_mod_cast Int.lt_add_one_iff.mp h2
  push_cast at h3
  linarith

/-- C8: the route figures of get_distance_and_duration lie in the documented
ranges for every pair of draws of its two uniform generators - the distance
between 1 and 30 km and the duration between 2 and 120 minutes - and in
particular both are finite, positive rationals; the mock has no failure
branch, so no call fails. -/
theorem claim_C8_route_bounds :
    ∀ u1 u2 : ℚ, 1 ≤ u1 → u1 ≤ 30 → 2 ≤ u2 → u2 ≤ 4 →
      (1 ≤ (get_distance_and_duration u1 u2).distance_km ∧
        (get_distance_and_duration u1 u2).distance_km ≤ 30 ∧
        0 < (get_distance_and_duration u1 u2).distance_km) ∧
      (2 ≤ (get_distance_and_duration u1 u2).estimated_duration_minutes ∧
        (get_distance_and_duration u1 u2).estimated_duration_minutes ≤ 120 ∧
        0 < (get_distance_and_duration u1 u2).estimated_duration_minutes) := by
  intro u1 u2 h1 h30 h2 h4
  simp only [get_distance_and_duration]
  have hd1 : ((1 : ℤ) : ℚ) ≤ round2 u1 := round2_ge u1 1 (by exact_mod_cast h1)
  have hd30 : round2 u1 ≤ ((30 : ℤ) : ℚ) := round2_le u1 30 (by exact_mod_cast h30)
  have hprod2 : ((2 : ℤ) : ℚ) ≤ u1 * u2 := by
    push_cast
    nlinarith
  have hprod120 : u1 * u2 ≤ ((120 : ℤ) : ℚ) := by
    push_cast
    nlinarith
  have ht2 : ((2 : ℤ) : ℚ) ≤ round2 (u1 * u2) := round2_ge (u1 * u2) 2 hprod2
  have ht120 : round2 (u1 * u2) ≤ ((120 : ℤ) : ℚ) := round2_le (u1 * u2) 120 hprod120
  push_cast at hd1 hd30 ht2 ht120
  refine ⟨⟨hd1, hd30, by linarith⟩, ht2, ht120, by linarith⟩

/-- Witness for C8 at the draws 2 and 3: the hypotheses hold and the returned
distance and duration are positive and within range. -/
theorem claim_C8_witness :
    ((1 : ℚ) ≤ 2 ∧ (2 : ℚ) ≤ 30 ∧ (2 : ℚ) ≤ 3 ∧ (3 : ℚ) ≤ 4) ∧
      ((1 ≤ (get_distance_and_duration 2 3).distance_km ∧
          (get_distance_and_duration 2 3).distance_km ≤ 30 ∧
          0 < (get_distance_and_duration 2 3).distance_km) ∧
        (2 ≤ (get_distance_and_duration 2 3).estimated_duration_minutes ∧
          (get_distance_and_duration 2 3).estimated_duration_minutes ≤ 120 ∧
          0 < (get_distance_and_duration 2 3).estimated_duration_minutes)) :=
  ⟨⟨by norm_num, by norm_num, by norm_num, by norm_num⟩,
    claim_C8_route_bounds 2 3 (by norm_num) (by norm_num) (by norm_num) (by norm_num)⟩

/-- C10: create_volunteer stores the availability list as one comma joined
string, the read path returns that string verbatim, the join identifies
distinct lists, and therefore no reading function whatsoever can recover the
list passed at creation for every volunteer. -/
theorem claim_C10_availability_lossy :
    (create_volunteer dbInit 0 vc0).2.availability = "Monday 9-12,Wednesday 1-4" ∧
    read_availability (create_volunteer dbInit 0 vc0).2 =
      "Monday 9-12,Wednesday 1-4" ∧
    (create_volunteer dbInit 0 { vc0 with availability := ["a,b"] }).2.availability =
      (create_volunteer dbInit 0 { vc0 with availability := ["a", "b"] }).2.availability ∧
    (["a,b"] : List String) ≠ ["a", "b"] ∧
    ¬ ∃ g : String → List String,
        ∀ ys : List String,
          g ((create_volunteer dbInit 0 { vc0 with availability := ys }).2.availability) =
            ys := by
  refine ⟨by decide, by decide, by decide, by decide, ?_⟩
  rintro ⟨g, hg⟩
  have h1 := hg ["a,b"]
  have h2 := hg ["a", "b"]
  have e1 : (create_volunteer dbInit 0
      { vc0 with availability := ["a,b"] }).2.availability = "a,b" := by decide
  have e2 : (create_volunteer dbInit 0
      { vc0 with availability := ["a", "b"] }).2.availability = "a,b" := by decide
  rw [e1] at h1
  rw [e2] at h2
  exact absurd (h1.symm.trans h2) (by decide)
